import Mathlib

/-!
Verification of the reward calculation engine of the
Vanilla-Javascript-Example repository (src/rewardCalculator.js).

The JavaScript functions are shallowly embedded: JavaScript numbers are
modelled as `JSNum` (NaN, the two infinities, or an exact rational for the
finite values), arbitrary JavaScript values reaching the engine as
`JSValue`, thrown errors as `Except`, and the plain object used as a
month-key map as an insertion-ordered association list.
-/

deriving instance DecidableEq for Except

namespace RewardCalc

/-- A JavaScript number: NaN, +Infinity, -Infinity, or a finite value
modelled as an exact rational. -/
inductive JSNum where
  | nan
  | posInf
  | negInf
  | fin (q : ℚ)
deriving DecidableEq, Repr

namespace JSNum

/-- JavaScript `isNaN` on a number. -/
def isNaN : JSNum → Bool
  | nan => true
  | _ => false

/-- JavaScript `Number.isFinite` on a number. -/
def isFinite : JSNum → Bool
  | fin _ => true
  | _ => false

/-- JavaScript `<` on numbers: false whenever either side is NaN. -/
def lt : JSNum → JSNum → Bool
  | nan, _ => false
  | _, nan => false
  | negInf, negInf => false
  | negInf, _ => true
  | _, negInf => false
  | posInf, _ => false
  | fin _, posInf => true
  | fin a, fin b => decide (a < b)

/-- JavaScript `>` on numbers. -/
def gt (x y : JSNum) : Bool := lt y x

/-- JavaScript `>=` on numbers: false whenever either side is NaN. -/
def ge : JSNum → JSNum → Bool
  | nan, _ => false
  | _, nan => false
  | negInf, negInf => true
  | negInf, _ => false
  | _, negInf => true
  | posInf, _ => true
  | fin _, posInf => false
  | fin a, fin b => decide (b ≤ a)

/-- JavaScript `+` on numbers. -/
def add : JSNum → JSNum → JSNum
  | nan, _ => nan
  | _, nan => nan
  | posInf, negInf => nan
  | negInf, posInf => nan
  | posInf, _ => posInf
  | _, posInf => posInf
  | negInf, _ => negInf
  | _, negInf => negInf
  | fin a, fin b => fin (a + b)

/-- JavaScript `-` on numbers. -/
def sub : JSNum → JSNum → JSNum
  | nan, _ => nan
  | _, nan => nan
  | posInf, posInf => nan
  | negInf, negInf => nan
  | posInf, _ => posInf
  | negInf, _ => negInf
  | fin _, posInf => negInf
  | fin _, negInf => posInf
  | fin a, fin b => fin (a - b)

/-- JavaScript `*` on numbers. -/
def mul : JSNum → JSNum → JSNum
  | nan, _ => nan
  | _, nan => nan
  | posInf, posInf => posInf
  | posInf, negInf => negInf
  | negInf, posInf => negInf
  | negInf, negInf => posInf
  | posInf, fin q => if 0 < q then posInf else if q < 0 then negInf else nan
  | fin q, posInf => if 0 < q then posInf else if q < 0 then negInf else nan
  | negInf, fin q => if 0 < q then negInf else if q < 0 then posInf else nan
  | fin q, negInf => if 0 < q then negInf else if q < 0 then posInf else nan
  | fin a, fin b => fin (a * b)

/-- JavaScript `Math.min` on two numbers: NaN if either side is NaN. -/
def jmin : JSNum → JSNum → JSNum
  | nan, _ => nan
  | _, nan => nan
  | negInf, _ => negInf
  | _, negInf => negInf
  | posInf, y => y
  | x, posInf => x
  | fin a, fin b => fin (Min.min a b)

/-- JavaScript `Math.floor`. -/
def floor : JSNum → JSNum
  | nan => nan
  | posInf => posInf
  | negInf => negInf
  | fin q => fin ((⌊q⌋ : ℤ) : ℚ)

end JSNum

/-- A JavaScript value as seen by the engine: a number, a string, `null`,
or `undefined` (any other value behaves like a non-number for the engine's
`typeof` guards, so it is subsumed by `undef`). -/
inductive JSValue where
  | num (n : JSNum)
  | str (s : String)
  | nullv
  | undef
deriving DecidableEq, Repr

/-- `CONSTANTS.REWARDS.HIGH_THRESHOLD` from src/constants.js. -/
def HIGH_THRESHOLD : JSNum := .fin 100

/-- `CONSTANTS.REWARDS.LOW_THRESHOLD` from src/constants.js. -/
def LOW_THRESHOLD : JSNum := .fin 50

/-- `CONSTANTS.REWARDS.HIGH_MULTIPLIER` from src/constants.js. -/
def HIGH_MULTIPLIER : JSNum := .fin 2

/-- `CONSTANTS.REWARDS.LOW_MULTIPLIER` from src/constants.js. -/
def LOW_MULTIPLIER : JSNum := .fin 1

/-- Body of `RewardCalculator.calculatePointsForTransaction` after the
validity guard (src/rewardCalculator.js lines 28-46): accumulate
`Math.floor((amount - HIGH_THRESHOLD) * HIGH_MULTIPLIER)` when
`amount > HIGH_THRESHOLD`, then
`Math.floor((Math.min(amount, HIGH_THRESHOLD) - LOW_THRESHOLD) * LOW_MULTIPLIER)`
when that low-tier portion is `> 0`. -/
def pointsBody (amount : JSNum) : JSNum :=
  let points : JSNum := .fin 0
  let points :=
    if amount.gt HIGH_THRESHOLD then
      points.add (((amount.sub HIGH_THRESHOLD).mul HIGH_MULTIPLIER).floor)
    else points
  let amountForLowTier := (amount.jmin HIGH_THRESHOLD).sub LOW_THRESHOLD
  let points :=
    if amountForLowTier.gt (.fin 0) then
      points.add ((amountForLowTier.mul LOW_MULTIPLIER).floor)
    else points
  points

/-- `RewardCalculator.calculatePointsForTransaction`
(src/rewardCalculator.js lines 22-47): throws unless the argument is a
number that is not NaN and not `< 0`; otherwise returns the tiered,
independently floored point total. -/
def calculatePointsForTransaction (amount : JSValue) : Except String JSNum :=
  match amount with
  | .num n =>
      if n.isNaN || n.lt (.fin 0) then .error "Invalid transaction amount"
      else .ok (pointsBody n)
  | _ => .error "Invalid transaction amount"

/-- `RewardCalculator.isValidAmount` (src/rewardCalculator.js lines
261-263): `typeof amount === 'number' && !isNaN(amount) && amount >= 0`. -/
def isValidAmount (amount : JSValue) : Bool :=
  match amount with
  | .num n => !n.isNaN && n.ge (.fin 0)
  | _ => false

/-- The `pointsBreakdown` record `{highTier, lowTier}` produced by
`RewardCalculator.getPointsBreakdown`. -/
structure Breakdown where
  highTier : JSNum
  lowTier : JSNum
deriving DecidableEq, Repr

/-- `RewardCalculator.getPointsBreakdown` (src/rewardCalculator.js lines
191-216): zero breakdown for invalid amounts, otherwise the same two tier
computations as `calculatePointsForTransaction`, kept separate. -/
def getPointsBreakdown (amount : JSValue) : Breakdown :=
  match amount with
  | .num n =>
      if n.isNaN || n.lt (.fin 0) then ⟨.fin 0, .fin 0⟩
      else
        let highTierPoints :=
          if n.gt HIGH_THRESHOLD then
            ((n.sub HIGH_THRESHOLD).mul HIGH_MULTIPLIER).floor
          else .fin 0
        let amountForLowTier := (n.jmin HIGH_THRESHOLD).sub LOW_THRESHOLD
        let lowTierPoints :=
          if amountForLowTier.gt (.fin 0) then
            (amountForLowTier.mul LOW_MULTIPLIER).floor
          else .fin 0
        ⟨highTierPoints, lowTierPoints⟩
  | _ => ⟨.fin 0, .fin 0⟩

/-- The engine's view of a transaction's `date` field, abstracting the
JavaScript `Date` builtin (which is external to the repository): `absent`
for a falsy field value (missing, `null`, empty string, `0`, NaN),
`unparseable` for a truthy value on which `new Date(...)` yields NaN time,
and `parsed y m` for a value parsing to a date whose local calendar year is
`y` (`getFullYear()`) and 1-based month is `m` (`getMonth() + 1`). -/
inductive DateField where
  | absent
  | unparseable
  | parsed (year : ℤ) (month : ℕ)
deriving DecidableEq, Repr

/-- A transaction record as consumed by the engine: the identifying fields
it passes through untouched, the `amount` field (an arbitrary JavaScript
value), and the `date` field. -/
structure Transaction where
  transactionId : String
  amount : JSValue
  date : DateField
deriving DecidableEq, Repr

/-- A batch argument: `none` models an argument that is not an array
(`Array.isArray` fails), `some l` an array whose elements are `null`
(`none`) or transaction records. -/
abbrev TransactionsArg : Type := Option (List (Option Transaction))

/-- The loop of `RewardCalculator.calculateTotalPoints`
(src/rewardCalculator.js lines 66-84): skip `null` elements and elements
whose `amount` is not a number, absorb the error thrown by
`calculatePointsForTransaction` on NaN/negative amounts, and accumulate the
points of the remaining elements in order. -/
def totalLoop : List (Option Transaction) → JSNum → JSNum
  | [], total => total
  | t :: ts, total =>
    match t with
    | none => totalLoop ts total
    | some tx =>
      match tx.amount with
      | .num _ =>
        match calculatePointsForTransaction tx.amount with
        | .ok pts => totalLoop ts (total.add pts)
        | .error _ => totalLoop ts total
      | _ => totalLoop ts total

/-- `RewardCalculator.calculateTotalPoints` (src/rewardCalculator.js lines
55-88): throws when the argument is not an array, otherwise runs the
accumulation loop starting from 0 (the early return for an empty array also
yields 0, so it is subsumed by the loop). -/
def calculateTotalPoints (transactions : TransactionsArg) : Except String JSNum :=
  match transactions with
  | none => .error "Transactions must be an array"
  | some l => .ok (totalLoop l (.fin 0))

/-- An element of the output of `calculatePointsWithDetails`: the spread
copy of the original transaction's fields plus the added `points` and
`pointsBreakdown` fields. -/
structure DetailedTransaction where
  base : Transaction
  points : JSNum
  pointsBreakdown : Breakdown
deriving DecidableEq, Repr

/-- The loop of `RewardCalculator.calculatePointsWithDetails`
(src/rewardCalculator.js lines 155-179): `null` elements and elements whose
`amount` is not a number hit the `continue` guard and are dropped; elements
whose numeric amount makes `calculatePointsForTransaction` throw (NaN or
negative) are caught and pushed with 0 points and a zero breakdown; valid
elements are pushed with their points and breakdown. -/
def detailsLoop : List (Option Transaction) → List DetailedTransaction
  | [] => []
  | t :: ts =>
    match t with
    | none => detailsLoop ts
    | some tx =>
      match tx.amount with
      | .num _ =>
        match calculatePointsForTransaction tx.amount with
        | .ok pts => ⟨tx, pts, getPointsBreakdown tx.amount⟩ :: detailsLoop ts
        | .error _ => ⟨tx, .fin 0, ⟨.fin 0, .fin 0⟩⟩ :: detailsLoop ts
      | _ => detailsLoop ts

/-- `RewardCalculator.calculatePointsWithDetails` (src/rewardCalculator.js
lines 147-183): throws when the argument is not an array, otherwise runs
the per-element loop. -/
def calculatePointsWithDetails (transactions : TransactionsArg) :
    Except String (List DetailedTransaction) :=
  match transactions with
  | none => .error "Transactions must be an array"
  | some l => .ok (detailsLoop l)

/-- A `monthlyBreakdown[monthYear]` bucket (src/rewardCalculator.js lines
121-125 and 128-130). -/
structure MonthlyBucket where
  points : JSNum
  transactionCount : ℕ
  totalAmount : JSNum
deriving DecidableEq, Repr

/-- JavaScript `String.prototype.padStart(n, '0')`. -/
def padStartZero (s : String) (n : ℕ) : String :=
  String.mk (List.replicate (n - s.length) '0') ++ s

/-- `RewardCalculator.getMonthYearKey` (src/rewardCalculator.js lines
224-232) applied to an already-validated date: template string
`"<year>-<zero-padded month>"`. -/
def getMonthYearKey (year : ℤ) (month : ℕ) : String :=
  toString year ++ "-" ++ padStartZero (Nat.repr month) 2

/-- One `+=`/`++` update of a bucket (src/rewardCalculator.js lines
128-130). -/
def bumpBucket (b : MonthlyBucket) (pts amt : JSNum) : MonthlyBucket :=
  ⟨b.points.add pts, b.transactionCount + 1, b.totalAmount.add amt⟩

/-- The JavaScript object update `monthlyBreakdown[monthYear]`: create the
zero bucket at the end of the key order if the key is absent (lines
120-126), then apply the three accumulating updates. -/
def upsertBucket : List (String × MonthlyBucket) → String → JSNum → JSNum →
    List (String × MonthlyBucket)
  | [], k, pts, amt => [(k, bumpBucket ⟨.fin 0, 0, .fin 0⟩ pts amt)]
  | (k', b) :: rest, k, pts, amt =>
    if k' = k then (k', bumpBucket b pts amt) :: rest
    else (k', b) :: upsertBucket rest k pts amt

/-- One iteration of the `calculateMonthlyBreakdown` loop
(src/rewardCalculator.js lines 104-136): skip `null` elements, non-numeric
amounts, falsy dates, unparseable dates, and amounts on which
`calculatePointsForTransaction` throws; otherwise update the bucket of the
element's month-key. -/
def monthlyStep (acc : List (String × MonthlyBucket)) (t : Option Transaction) :
    List (String × MonthlyBucket) :=
  match t with
  | none => acc
  | some tx =>
    match tx.amount with
    | .num n =>
      match tx.date with
      | .absent => acc
      | .unparseable => acc
      | .parsed y m =>
        match calculatePointsForTransaction tx.amount with
        | .ok pts => upsertBucket acc (getMonthYearKey y m) pts n
        | .error _ => acc
    | _ => acc

/-- The full `calculateMonthlyBreakdown` loop over the input list. -/
def monthlyLoop : List (Option Transaction) → List (String × MonthlyBucket) →
    List (String × MonthlyBucket)
  | [], acc => acc
  | t :: ts, acc => monthlyLoop ts (monthlyStep acc t)

/-- `RewardCalculator.calculateMonthlyBreakdown` (src/rewardCalculator.js
lines 96-140): throws when the argument is not an array, otherwise folds
the per-element step starting from the empty object. -/
def calculateMonthlyBreakdown (transactions : TransactionsArg) :
    Except String (List (String × MonthlyBucket)) :=
  match transactions with
  | none => .error "Transactions must be an array"
  | some l => .ok (monthlyLoop l [])

/-- The `monthNames` array of `getMonthYearDisplay`
(src/rewardCalculator.js lines 245-248). -/
def monthNames : List String :=
  ["January", "February", "March", "April", "May", "June",
   "July", "August", "September", "October", "November", "December"]

/-- JavaScript `String.prototype.includes` for a single-character search
string. -/
def jsIncludes (s : String) (c : Char) : Bool := s.toList.contains c

/-- Splitting of a character list at every occurrence of the separator
(JavaScript `String.prototype.split` with a one-character separator). -/
def jsSplitList (sep : Char) : List Char → List (List Char)
  | [] => [[]]
  | c :: rest =>
    let r := jsSplitList sep rest
    if c = sep then [] :: r
    else (c :: r.headD []) :: r.tail

/-- JavaScript `s.split(sep)` for a one-character separator. -/
def jsSplit (s : String) (sep : Char) : List String :=
  (jsSplitList sep s.toList).map String.mk

/-- Value of a list of decimal digit characters. -/
def digitsValue (ds : List Char) : ℕ :=
  ds.foldl (fun a c => a * 10 + (c.toNat - 48)) 0

/-- JavaScript `parseInt(s, 10)`: skip leading whitespace, an optional
sign, then the longest digit run; `none` models the NaN result when no
digit follows. -/
def parseIntBase10 (s : String) : Option ℤ :=
  let cs := s.toList.dropWhile (fun c => c = ' ' || c = '\t' || c = '\n' || c = '\r')
  match cs with
  | '-' :: rest =>
    let ds := rest.takeWhile Char.isDigit
    if ds.isEmpty then none else some (-(digitsValue ds : ℤ))
  | '+' :: rest =>
    let ds := rest.takeWhile Char.isDigit
    if ds.isEmpty then none else some ((digitsValue ds : ℤ))
  | _ =>
    let ds := cs.takeWhile Char.isDigit
    if ds.isEmpty then none else some ((digitsValue ds : ℤ))

/-- JavaScript `arr[i] || d` for an array of non-empty strings: the element
at `i` when `i` is an index in range, the default otherwise. -/
def jsIndexDefault (l : List String) (i : ℤ) (d : String) : String :=
  if 0 ≤ i then l.getD i.toNat d else d

/-- `RewardCalculator.getMonthYearDisplay` (src/rewardCalculator.js lines
239-254): `"Invalid Date"` unless the argument is a string containing
`'-'`; otherwise split at `'-'`, look the month name up at
`parseInt(month, 10) - 1` falling back to `"Unknown"`, and append the year
part. -/
def getMonthYearDisplay (monthYearKey : JSValue) : String :=
  match monthYearKey with
  | .str s =>
    if jsIncludes s '-' then
      let parts := jsSplit s '-'
      let year := parts.headD ""
      let month := parts.getD 1 ""
      let monthName :=
        match parseIntBase10 month with
        | some mi => jsIndexDefault monthNames (mi - 1) "Unknown"
        | none => "Unknown"
      monthName ++ " " ++ year
    else "Invalid Date"
  | _ => "Invalid Date"

/-- High-tier points of a finite amount, as an integer: the first tier of
`pointsBody` specialised to finite values. -/
def finHigh (q : ℚ) : ℤ := if 100 < q then ⌊(q - 100) * 2⌋ else 0

/-- Low-tier points of a finite amount, as an integer: the second tier of
`pointsBody` specialised to finite values. -/
def finLow (q : ℚ) : ℤ :=
  if 0 < min q 100 - 50 then ⌊(min q 100 - 50) * 1⌋ else 0

/-- Total points of a finite valid amount, as an integer: the two tiers
floored independently and summed. -/
def finPoints (q : ℚ) : ℤ := finHigh q + finLow q

/-- The points contributed by one batch element when it is retained by
`calculateTotalPoints`: `none` for a `null` element and for an element
whose amount makes `calculatePointsForTransaction` throw. -/
def validPoints (t : Option Transaction) : Option JSNum :=
  t.bind fun tx => (calculatePointsForTransaction tx.amount).toOption

/-- Key lookup in the insertion-ordered association list modelling the
`monthlyBreakdown` object. -/
def lookupKey : List (String × MonthlyBucket) → String → Option MonthlyBucket
  | [], _ => none
  | (k', b) :: rest, k => if k' = k then some b else lookupKey rest k

/-- The month-key, points and amount of a batch element retained by
`calculateMonthlyBreakdown`; `none` when the element is skipped (null,
non-numeric amount, falsy or unparseable date, or thrown amount error). -/
def retainedEntry (t : Option Transaction) : Option (String × JSNum × JSNum) :=
  match t with
  | some tx =>
    match tx.amount, tx.date with
    | .num n, .parsed y m =>
      match calculatePointsForTransaction tx.amount with
      | .ok pts => some (getMonthYearKey y m, pts, n)
      | .error _ => none
    | _, _ => none
  | none => none

/-- The (points, amount) pairs of the retained elements mapping to a given
month-key, in input order. -/
def retainedFor (l : List (Option Transaction)) (k : String) : List (JSNum × JSNum) :=
  l.filterMap fun t =>
    match retainedEntry t with
    | some (k', p, a) => if k' = k then some (p, a) else none
    | none => none

/-- Folding one retained (points, amount) pair into the optional bucket of
its month-key: create the zero bucket on first use, then accumulate. -/
def aggStep (o : Option MonthlyBucket) (pa : JSNum × JSNum) : Option MonthlyBucket :=
  some (bumpBucket (o.getD ⟨.fin 0, 0, .fin 0⟩) pa.1 pa.2)

/-- The amended description of `getMonthYearDisplay`, stated independently
of the implementation: `"Invalid Date"` exactly for non-strings and strings
without a `'-'`; otherwise the month name selected by the parsed month
number when it lies between 1 and 12 (`"Unknown"` in every other case),
followed by the part of the string before the first `'-'`. -/
def specMonthKeyDisplay (v : JSValue) : String :=
  match v with
  | .str s =>
    if jsIncludes s '-' then
      let year := (jsSplit s '-').headD ""
      let monthPart := (jsSplit s '-').getD 1 ""
      let monthName :=
        match parseIntBase10 monthPart with
        | some m =>
          if 1 ≤ m ∧ m ≤ 12 then monthNames.getD (m - 1).toNat "Unknown"
          else "Unknown"
        | none => "Unknown"
      monthName ++ " " ++ year
    else "Invalid Date"
  | _ => "Invalid Date"

/-- A transaction record carrying only an `amount` (the aggregate
operations read nothing else). -/
def amountOnly (a : JSValue) : Transaction := ⟨"", a, .absent⟩

/-- The batch of spec scenario 5: valid, non-numeric, valid, negative,
null, valid. -/
def mixedBatch : List (Option Transaction) :=
  [some (amountOnly (.num (.fin 120))), some (amountOnly (.str "invalid")),
   some (amountOnly (.num (.fin 75))), some (amountOnly (.num (.fin (-10)))),
   none, some (amountOnly (.num (.fin 80)))]

/-- A dated transaction record with a finite amount. -/
def datedTx (a : ℚ) (y : ℤ) (m : ℕ) : Transaction := ⟨"", .num (.fin a), .parsed y m⟩

/-- The batch of spec scenario 6. -/
def monthlyBatch : List (Option Transaction) :=
  [some (datedTx 120 2025 1), some (datedTx 75 2025 1), some (datedTx 150 2025 2)]

/-- The input of the repository's own
`should handle invalid transactions with 0 points` test for
`calculatePointsWithDetails`: a record with a string amount followed by a
valid record. -/
def detailsTestBatch : List (Option Transaction) :=
  [some ⟨"T1", .str "invalid", .absent⟩, some ⟨"T2", .num (.fin 75), .absent⟩]

end RewardCalc

namespace RewardCalc

/-- On a finite amount, the points body computes the two independently
floored tiers. -/
theorem pointsBody_fin (q : ℚ) :
    pointsBody (.fin q) = .fin ((finPoints q : ℤ) : ℚ) := by
  unfold pointsBody finPoints finHigh finLow
  simp only [JSNum.gt, JSNum.lt, JSNum.sub, JSNum.jmin, JSNum.mul, JSNum.add, JSNum.floor,
    HIGH_THRESHOLD, LOW_THRESHOLD, HIGH_MULTIPLIER, LOW_MULTIPLIER, decide_eq_true_eq]
  by_cases h1 : (100 : ℚ) < q <;> by_cases h2 : (0 : ℚ) < min q 100 - 50 <;>
    simp [h1, h2]

/-- On a finite non-negative amount the validity guard passes. -/
theorem calculatePoints_fin (q : ℚ) (h : 0 ≤ q) :
    calculatePointsForTransaction (.num (.fin q)) = .ok (.fin ((finPoints q : ℤ) : ℚ)) := by
  rw [calculatePointsForTransaction, pointsBody_fin]
  simp [JSNum.isNaN, JSNum.lt, not_lt.mpr h]

/-- On a finite non-negative amount the breakdown is the two tiers. -/
theorem getPointsBreakdown_fin (q : ℚ) (h : 0 ≤ q) :
    getPointsBreakdown (.num (.fin q)) =
      ⟨.fin ((finHigh q : ℤ) : ℚ), .fin ((finLow q : ℤ) : ℚ)⟩ := by
  unfold getPointsBreakdown finHigh finLow
  simp only [JSNum.gt, JSNum.lt, JSNum.sub, JSNum.jmin, JSNum.mul, JSNum.floor, JSNum.isNaN,
    HIGH_THRESHOLD, LOW_THRESHOLD, HIGH_MULTIPLIER, LOW_MULTIPLIER, decide_eq_true_eq,
    Bool.false_or]
  rw [if_neg h.not_lt]
  by_cases h1 : (100 : ℚ) < q <;> by_cases h2 : (0 : ℚ) < min q 100 - 50 <;>
    simp [h1, h2]

theorem finHigh_nonneg (q : ℚ) : 0 ≤ finHigh q := by
  unfold finHigh
  split
  · exact Int.floor_nonneg.mpr (by nlinarith)
  · exact le_refl 0

theorem finLow_nonneg (q : ℚ) : 0 ≤ finLow q := by
  unfold finLow
  split
  · exact Int.floor_nonneg.mpr (by linarith)
  · exact le_refl 0

theorem finHigh_mono {a b : ℚ} (hab : a ≤ b) : finHigh a ≤ finHigh b := by
  unfold finHigh
  split <;> split
  · exact Int.floor_mono (by nlinarith)
  · exfalso; linarith
  · exact Int.floor_nonneg.mpr (by nlinarith)
  · exact le_refl 0

theorem finLow_mono {a b : ℚ} (hab : a ≤ b) : finLow a ≤ finLow b := by
  have hmin : min a 100 ≤ min b 100 := min_le_min hab (le_refl _)
  unfold finLow
  split <;> split
  · exact Int.floor_mono (by nlinarith)
  · exfalso; linarith
  · exact Int.floor_nonneg.mpr (by nlinarith)
  · exact le_refl 0

end RewardCalc

namespace RewardCalc

/-- Claim C4: for every finite valid amount `a`, the engine awards 0 points
up to 50, `floor(a - 50)` points from 50 (exclusive) to 100 (inclusive),
and `floor(2 * (a - 100)) + 50` points above 100, the two tier portions
being floored independently before summing. -/
theorem claim_C4 (q : ℚ) (h0 : 0 ≤ q) :
    (q ≤ 50 → calculatePointsForTransaction (.num (.fin q)) = .ok (.fin 0)) ∧
    (50 < q → q ≤ 100 →
      calculatePointsForTransaction (.num (.fin q)) = .ok (.fin ((⌊q - 50⌋ : ℤ) : ℚ))) ∧
    (100 < q →
      calculatePointsForTransaction (.num (.fin q)) =
        .ok (.fin ((⌊2 * (q - 100)⌋ + 50 : ℤ) : ℚ))) ∧
    calculatePointsForTransaction (.num (.fin q)) =
      .ok (.fin ((finHigh q + finLow q : ℤ) : ℚ)) := by
  have hbase := calculatePoints_fin q h0
  have hsum : calculatePointsForTransaction (.num (.fin q)) =
      .ok (.fin ((finHigh q + finLow q : ℤ) : ℚ)) := by
    rw [hbase]; unfold finPoints; rfl
  refine ⟨?_, ?_, ?_, hsum⟩
  · intro h50
    have hmin : min q 100 = q := min_eq_left (by linarith)
    have h1 : ¬ (100 : ℚ) < q := by linarith
    have h2 : ¬ (0 : ℚ) < min q 100 - 50 := by rw [hmin]; linarith
    have hH : finHigh q = 0 := by unfold finHigh; rw [if_neg h1]
    have hL : finLow q = 0 := by unfold finLow; rw [if_neg h2]
    rw [hsum, hH, hL]
    norm_num
  · intro h50 h100
    have hmin : min q 100 = q := min_eq_left h100
    have h1 : ¬ (100 : ℚ) < q := by linarith
    have h2 : (0 : ℚ) < min q 100 - 50 := by rw [hmin]; linarith
    have hH : finHigh q = 0 := by unfold finHigh; rw [if_neg h1]
    have hL : finLow q = ⌊q - 50⌋ := by
      unfold finLow; rw [if_pos h2, hmin, mul_one]
    rw [hsum, hH, hL, zero_add]
  · intro h100
    have hmin : min q 100 = (100 : ℚ) := min_eq_right (by linarith)
    have h2 : (0 : ℚ) < min q 100 - 50 := by rw [hmin]; norm_num
    have hH : finHigh q = ⌊2 * (q - 100)⌋ := by
      unfold finHigh; rw [if_pos h100, mul_comm]
    have hL : finLow q = 50 := by
      unfold finLow; rw [if_pos h2, hmin]; norm_num
    rw [hsum, hH, hL]

/-- Witness for C4 at the spec scenarios `a = 30` and `a = 120`. -/
theorem claim_C4_witness :
    ((0 : ℚ) ≤ 30 ∧ (30 : ℚ) ≤ 50 ∧
      calculatePointsForTransaction (.num (.fin 30)) = .ok (.fin 0)) ∧
    ((0 : ℚ) ≤ 120 ∧ (100 : ℚ) < 120 ∧
      calculatePointsForTransaction (.num (.fin 120)) =
        .ok (.fin ((⌊2 * ((120 : ℚ) - 100)⌋ + 50 : ℤ) : ℚ))) :=
  ⟨⟨by norm_num, by norm_num, (claim_C4 30 (by norm_num)).1 (by norm_num)⟩,
   ⟨by norm_num, by norm_num, (claim_C4 120 (by norm_num)).2.2.1 (by norm_num)⟩⟩

/-- Claim C7: for every finite valid amount, the total points equal the sum
of the two breakdown tiers, and each tier is a non-negative integer. -/
theorem claim_C7 (q : ℚ) (h0 : 0 ≤ q) :
    getPointsBreakdown (.num (.fin q)) =
      ⟨.fin ((finHigh q : ℤ) : ℚ), .fin ((finLow q : ℤ) : ℚ)⟩ ∧
    calculatePointsForTransaction (.num (.fin q)) =
      .ok (.fin (((finHigh q : ℤ) : ℚ) + ((finLow q : ℤ) : ℚ))) ∧
    0 ≤ finHigh q ∧ 0 ≤ finLow q := by
  refine ⟨getPointsBreakdown_fin q h0, ?_, finHigh_nonneg q, finLow_nonneg q⟩
  rw [calculatePoints_fin q h0]
  push_cast [finPoints]
  ring_nf

/-- Witness for C7 at `a = 120` (high tier 40, low tier 50). -/
theorem claim_C7_witness :
    (0 : ℚ) ≤ 120 ∧
    (getPointsBreakdown (.num (.fin 120)) =
        ⟨.fin ((finHigh 120 : ℤ) : ℚ), .fin ((finLow 120 : ℤ) : ℚ)⟩ ∧
      calculatePointsForTransaction (.num (.fin 120)) =
        .ok (.fin (((finHigh 120 : ℤ) : ℚ) + ((finLow 120 : ℤ) : ℚ))) ∧
      0 ≤ finHigh (120 : ℚ) ∧ 0 ≤ finLow (120 : ℚ)) :=
  ⟨by norm_num, claim_C7 120 (by norm_num)⟩

/-- Claim C8: on finite valid amounts the awarded points are non-negative
and non-decreasing in the amount. -/
theorem claim_C8 (a b : ℚ) (ha : 0 ≤ a) (hab : a ≤ b) :
    calculatePointsForTransaction (.num (.fin a)) = .ok (.fin ((finPoints a : ℤ) : ℚ)) ∧
    calculatePointsForTransaction (.num (.fin b)) = .ok (.fin ((finPoints b : ℤ) : ℚ)) ∧
    0 ≤ finPoints a ∧ finPoints a ≤ finPoints b := by
  refine ⟨calculatePoints_fin a ha, calculatePoints_fin b (le_trans ha hab), ?_, ?_⟩
  · exact add_nonneg (finHigh_nonneg a) (finLow_nonneg a)
  · exact add_le_add (finHigh_mono hab) (finLow_mono hab)

/-- Witness for C8 at `a = 75`, `b = 120`. -/
theorem claim_C8_witness :
    ((0 : ℚ) ≤ 75 ∧ (75 : ℚ) ≤ 120) ∧
    (calculatePointsForTransaction (.num (.fin 75)) = .ok (.fin ((finPoints 75 : ℤ) : ℚ)) ∧
      calculatePointsForTransaction (.num (.fin 120)) = .ok (.fin ((finPoints 120 : ℤ) : ℚ)) ∧
      0 ≤ finPoints (75 : ℚ) ∧ finPoints (75 : ℚ) ≤ finPoints (120 : ℚ)) :=
  ⟨⟨by norm_num, by norm_num⟩, claim_C8 75 120 (by norm_num) (by norm_num)⟩

end RewardCalc

namespace RewardCalc

/-- Counterexample to claim C2: `+Infinity` is accepted as a valid amount
and `computePoints` returns normally on it, although it is not finite (the
code checks `isNaN`, not `isFinite`). -/
theorem claim_C2_counterexample :
    isValidAmount (.num .posInf) = true ∧
    JSNum.isFinite .posInf = false ∧
    calculatePointsForTransaction (.num .posInf) = .ok .posInf := by
  refine ⟨rfl, rfl, ?_⟩
  norm_num [calculatePointsForTransaction, pointsBody, JSNum.gt, JSNum.lt, JSNum.sub, JSNum.mul,
    JSNum.add, JSNum.jmin, JSNum.floor, JSNum.isNaN, HIGH_THRESHOLD, LOW_THRESHOLD,
    HIGH_MULTIPLIER, LOW_MULTIPLIER]

/-- Claim C2 as amended: `isValidAmount` is true exactly for numbers that
are not NaN and `>= 0` — the finite non-negative numbers plus `+Infinity` —
and `computePoints` returns normally exactly on those values. -/
theorem claim_C2_amended (v : JSValue) :
    (isValidAmount v = true ↔
      v = .num .posInf ∨ ∃ q : ℚ, 0 ≤ q ∧ v = .num (.fin q)) ∧
    ((calculatePointsForTransaction v).toOption.isSome = true ↔ isValidAmount v = true) := by
  constructor
  · cases v with
    | num n =>
      cases n <;>
        simp [isValidAmount, JSNum.isNaN, JSNum.ge]
    | str s => simp [isValidAmount]
    | nullv => simp [isValidAmount]
    | undef => simp [isValidAmount]
  · cases v with
    | num n =>
      cases n with
      | nan => simp [isValidAmount, calculatePointsForTransaction, JSNum.isNaN, Except.toOption]
      | posInf =>
        simp [isValidAmount, calculatePointsForTransaction, JSNum.isNaN, JSNum.ge, JSNum.lt,
          Except.toOption]
      | negInf =>
        simp [isValidAmount, calculatePointsForTransaction, JSNum.isNaN, JSNum.ge, JSNum.lt,
          Except.toOption]
      | fin q =>
        by_cases hq : q < 0
        · simp [isValidAmount, calculatePointsForTransaction, JSNum.isNaN, JSNum.ge, JSNum.lt,
            Except.toOption, hq, not_le.mpr hq]
        · simp [isValidAmount, calculatePointsForTransaction, JSNum.isNaN, JSNum.ge, JSNum.lt,
            Except.toOption, hq, not_lt.mp hq]
    | str s => simp [isValidAmount, calculatePointsForTransaction, Except.toOption]
    | nullv => simp [isValidAmount, calculatePointsForTransaction, Except.toOption]
    | undef => simp [isValidAmount, calculatePointsForTransaction, Except.toOption]

/-- Counterexample to claim C3: on 999999.99 the engine does not return
1999899. -/
theorem claim_C3_counterexample :
    calculatePointsForTransaction (.num (.fin (99999999 / 100))) ≠ .ok (.fin 1999899) := by
  norm_num [calculatePointsForTransaction, pointsBody, JSNum.gt, JSNum.lt, JSNum.sub, JSNum.mul,
    JSNum.add, JSNum.jmin, JSNum.floor, JSNum.isNaN, HIGH_THRESHOLD, LOW_THRESHOLD,
    HIGH_MULTIPLIER, LOW_MULTIPLIER, Int.floor_eq_iff]

/-- Claim C3 as amended: `computePoints(999999.99)` returns
`floor((999999.99 - 100) * 2) + floor(100 - 50) = 1999799 + 50 = 1999849`. -/
theorem claim_C3_amended :
    calculatePointsForTransaction (.num (.fin (99999999 / 100))) = .ok (.fin 1999849) := by
  norm_num [calculatePointsForTransaction, pointsBody, JSNum.gt, JSNum.lt, JSNum.sub, JSNum.mul,
    JSNum.add, JSNum.jmin, JSNum.floor, JSNum.isNaN, HIGH_THRESHOLD, LOW_THRESHOLD,
    HIGH_MULTIPLIER, LOW_MULTIPLIER, Int.floor_eq_iff]

/-- Counterexample to claim C9: `"x-y"` has a separator but the wrong
shape, yet the function returns `"Unknown x"` rather than
`"Invalid Date"`. -/
theorem claim_C9_counterexample :
    getMonthYearDisplay (.str "x-y") = "Unknown x" ∧
    "Unknown x" ≠ "Invalid Date" := by
  constructor
  · decide
  · decide

end RewardCalc

namespace RewardCalc

/-- The JavaScript fallback indexing `monthNames[i] || d` agrees with the
explicit bounds check `1 ≤ m ∧ m ≤ 12` on the month number `m = i + 1`. -/
theorem monthIndexDefault_eq (mi : ℤ) :
    jsIndexDefault monthNames (mi - 1) "Unknown" =
      if 1 ≤ mi ∧ mi ≤ 12 then monthNames.getD (mi - 1).toNat "Unknown" else "Unknown" := by
  unfold jsIndexDefault
  by_cases hb : 1 ≤ mi ∧ mi ≤ 12
  · have h0 : (0 : ℤ) ≤ mi - 1 := by omega
    rw [if_pos h0, if_pos hb]
  · by_cases h0 : (0 : ℤ) ≤ mi - 1
    · have hlen : monthNames.length ≤ (mi - 1).toNat := by
        simp only [monthNames, List.length]
        omega
      rw [if_pos h0, if_neg hb, List.getD_eq_default _ _ hlen]
    · rw [if_neg h0, if_neg hb]

/-- Claim C9 as amended: the display function returns `"Invalid Date"`
exactly for non-strings and strings without a `'-'`; any string with a
`'-'` is rendered as `"<MonthName or Unknown> <part before the first '-'>"`
with the month name chosen only for parsed month numbers 1 to 12; on
well-formed keys this gives `"<MonthName> <YYYY>"`. -/
theorem claim_C9_amended :
    (∀ v : JSValue, getMonthYearDisplay v = specMonthKeyDisplay v) ∧
    getMonthYearDisplay (.str "2025-01") = "January 2025" ∧
    getMonthYearDisplay (.str "2024-12") = "December 2024" ∧
    getMonthYearDisplay (.str "invalid") = "Invalid Date" ∧
    getMonthYearDisplay (.str "2025-13") = "Unknown 2025" := by
  refine ⟨?_, by decide, by decide, by decide, by decide⟩
  intro v
  cases v with
  | str s =>
    simp only [getMonthYearDisplay, specMonthKeyDisplay]
    by_cases hc : jsIncludes s '-' = true
    · simp only [hc, if_true]
      cases hp : parseIntBase10 ((jsSplit s '-').getD 1 "") with
      | none => rfl
      | some mi =>
        exact congrArg (fun x => x ++ " " ++ (jsSplit s '-').headD "") (monthIndexDefault_eq mi)
    · simp only [Bool.not_eq_true] at hc
      simp only [hc, Bool.false_eq_true, if_false]
  | num n => rfl
  | nullv => rfl
  | undef => rfl

end RewardCalc

namespace RewardCalc

/-- The accumulation loop of `calculateTotalPoints` sums exactly the
points of the elements retained by the skip policy, in input order. -/
theorem totalLoop_filterMap (l : List (Option Transaction)) :
    ∀ acc : JSNum, totalLoop l acc = (l.filterMap validPoints).foldl JSNum.add acc := by
  induction l with
  | nil => intro acc; rfl
  | cons t ts ih =>
    intro acc
    cases t with
    | none => simpa [totalLoop, validPoints, List.filterMap_cons] using ih acc
    | some tx =>
      cases hA : tx.amount with
      | num n =>
        simp only [totalLoop, hA, validPoints, List.filterMap_cons, Option.some_bind]
        cases hC : calculatePointsForTransaction (.num n) with
        | ok pts => simpa [hC, Except.toOption] using ih (acc.add pts)
        | error e => simpa [hC, Except.toOption] using ih acc
      | str s =>
        simpa [totalLoop, hA, validPoints, calculatePointsForTransaction,
          List.filterMap_cons, Except.toOption] using ih acc
      | nullv =>
        simpa [totalLoop, hA, validPoints, calculatePointsForTransaction,
          List.filterMap_cons, Except.toOption] using ih acc
      | undef =>
        simpa [totalLoop, hA, validPoints, calculatePointsForTransaction,
          List.filterMap_cons, Except.toOption] using ih acc

/-- Claim C5: `calculateTotalPoints` throws exactly when the argument is
not an array; on an array it returns the sum of the points of the valid
elements, skipping null, non-numeric, NaN and negative entries; the spec's
mixed batch yields 145 and the empty batch yields 0. -/
theorem claim_C5 :
    (∀ input : TransactionsArg,
        calculateTotalPoints input = .error "Transactions must be an array" ↔ input = none) ∧
    (∀ l : List (Option Transaction),
        calculateTotalPoints (some l) =
          .ok ((l.filterMap validPoints).foldl JSNum.add (.fin 0))) ∧
    calculateTotalPoints (some mixedBatch) = .ok (.fin 145) ∧
    calculateTotalPoints (some []) = .ok (.fin 0) := by
  refine ⟨?_, ?_, ?_, rfl⟩
  · intro input
    cases input with
    | none => simp [calculateTotalPoints]
    | some l => simp [calculateTotalPoints]
  · intro l
    rw [calculateTotalPoints, totalLoop_filterMap]
  · norm_num [calculateTotalPoints, totalLoop, mixedBatch, amountOnly,
      calculatePointsForTransaction, pointsBody, JSNum.gt, JSNum.lt, JSNum.sub, JSNum.mul,
      JSNum.add, JSNum.jmin, JSNum.floor, JSNum.isNaN, HIGH_THRESHOLD, LOW_THRESHOLD,
      HIGH_MULTIPLIER, LOW_MULTIPLIER]

/-- Claim C1 evaluated on the repository's own test input for
`calculatePointsWithDetails`: the record with the string amount `"invalid"`
is dropped by the `continue` guard instead of being emitted with 0 points,
so the output has length 1 while the input has length 2 and its first
element is the annotated copy of the second input record. -/
theorem claim_C1_code_behavior :
    calculatePointsWithDetails (some detailsTestBatch) =
      .ok [⟨⟨"T2", .num (.fin 75), .absent⟩, .fin 25, ⟨.fin 0, .fin 25⟩⟩] ∧
    detailsTestBatch.length = 2 := by
  constructor
  · norm_num [calculatePointsWithDetails, detailsLoop, detailsTestBatch,
      calculatePointsForTransaction, pointsBody, getPointsBreakdown, JSNum.gt, JSNum.lt,
      JSNum.sub, JSNum.mul, JSNum.add, JSNum.jmin, JSNum.floor, JSNum.isNaN, HIGH_THRESHOLD,
      LOW_THRESHOLD, HIGH_MULTIPLIER, LOW_MULTIPLIER]
  · rfl

end RewardCalc

namespace RewardCalc

/-- Updating a key leaves its own lookup at the bumped bucket. -/
theorem lookupKey_upsert_self (acc : List (String × MonthlyBucket)) (k : String)
    (pts amt : JSNum) :
    lookupKey (upsertBucket acc k pts amt) k =
      some (bumpBucket ((lookupKey acc k).getD ⟨.fin 0, 0, .fin 0⟩) pts amt) := by
  induction acc with
  | nil => simp [upsertBucket, lookupKey]
  | cons p rest ih =>
    obtain ⟨k', b⟩ := p
    by_cases h : k' = k
    · simp [upsertBucket, lookupKey, h]
    · simp [upsertBucket, lookupKey, h, ih]

/-- Updating a key leaves every other lookup unchanged. -/
theorem lookupKey_upsert_ne (acc : List (String × MonthlyBucket)) (k k₂ : String)
    (pts amt : JSNum) (hne : k₂ ≠ k) :
    lookupKey (upsertBucket acc k pts amt) k₂ = lookupKey acc k₂ := by
  induction acc with
  | nil => simp [upsertBucket, lookupKey, Ne.symm hne]
  | cons p rest ih =>
    obtain ⟨k', b⟩ := p
    by_cases h : k' = k
    · subst h
      simp [upsertBucket, lookupKey, Ne.symm hne]
    · simp [upsertBucket, lookupKey, h, ih]

/-- One loop iteration, seen through a fixed key's lookup: a retained
element with that key folds its (points, amount) pair in, anything else
leaves the lookup unchanged. -/
theorem lookup_monthlyStep (acc : List (String × MonthlyBucket)) (t : Option Transaction)
    (k : String) :
    lookupKey (monthlyStep acc t) k =
      match retainedEntry t with
      | some (k', p, a) =>
          if k' = k then aggStep (lookupKey acc k) (p, a) else lookupKey acc k
      | none => lookupKey acc k := by
  cases t with
  | none => rfl
  | some tx =>
    cases hA : tx.amount with
    | num n =>
      cases hD : tx.date with
      | parsed y m =>
        cases hC : calculatePointsForTransaction (.num n) with
        | ok pts =>
          simp only [monthlyStep, retainedEntry, hA, hD, hC]
          by_cases hk : getMonthYearKey y m = k
          · subst hk
            rw [lookupKey_upsert_self, if_pos rfl]
            rfl
          · rw [if_neg hk, lookupKey_upsert_ne _ _ _ _ _ (fun h => hk h.symm)]
        | error e => simp only [monthlyStep, retainedEntry, hA, hD, hC]
      | absent => simp only [monthlyStep, retainedEntry, hA, hD]
      | unparseable => simp only [monthlyStep, retainedEntry, hA, hD]
    | str s => simp only [monthlyStep, retainedEntry, hA]
    | nullv => simp only [monthlyStep, retainedEntry, hA]
    | undef => simp only [monthlyStep, retainedEntry, hA]

/-- The whole loop, seen through a fixed key's lookup, folds exactly the
retained pairs of that key over the starting lookup. -/
theorem lookup_monthlyLoop (l : List (Option Transaction)) :
    ∀ (acc : List (String × MonthlyBucket)) (k : String),
      lookupKey (monthlyLoop l acc) k = (retainedFor l k).foldl aggStep (lookupKey acc k) := by
  induction l with
  | nil => intro acc k; rfl
  | cons t ts ih =>
    intro acc k
    rw [monthlyLoop, ih, lookup_monthlyStep]
    cases hR : retainedEntry t with
    | none => simp [retainedFor, List.filterMap_cons, hR]
    | some e =>
      obtain ⟨k', p, a⟩ := e
      by_cases hk : k' = k
      · subst hk
        simp only [retainedFor, List.filterMap_cons, hR, if_pos rfl, List.foldl_cons]
        rfl
      · simp only [retainedFor, List.filterMap_cons, hR, if_neg hk]

/-- Folding retained pairs over an existing bucket accumulates points sum,
count and amount sum componentwise. -/
theorem foldl_aggStep_some (r : List (JSNum × JSNum)) :
    ∀ b : MonthlyBucket,
      r.foldl aggStep (some b) =
        some ⟨r.foldl (fun s pa => s.add pa.1) b.points,
              b.transactionCount + r.length,
              r.foldl (fun s pa => s.add pa.2) b.totalAmount⟩ := by
  induction r with
  | nil => intro b; rfl
  | cons pa r ih =>
    intro b
    simp only [List.foldl_cons]
    rw [show aggStep (some b) pa = some (bumpBucket b pa.1 pa.2) from rfl, ih]
    simp only [bumpBucket, List.length_cons, Option.some.injEq, MonthlyBucket.mk.injEq]
    exact ⟨trivial, by omega, trivial⟩

/-- Claim C6: each month-key of the breakdown holds the points sum, the
count and the amount sum of exactly the retained transactions mapping to
that key (and is absent when there are none), and the spec's scenario 6
batch produces the two expected buckets in insertion order. -/
theorem claim_C6 :
    (∀ (l : List (Option Transaction)) (k : String),
        lookupKey (monthlyLoop l []) k =
          if retainedFor l k = [] then none
          else some ⟨(retainedFor l k).foldl (fun s pa => s.add pa.1) (.fin 0),
                     (retainedFor l k).length,
                     (retainedFor l k).foldl (fun s pa => s.add pa.2) (.fin 0)⟩) ∧
    calculateMonthlyBreakdown (some monthlyBatch) =
      .ok [("2025-01", ⟨.fin 115, 2, .fin 195⟩), ("2025-02", ⟨.fin 150, 1, .fin 150⟩)] := by
  constructor
  · intro l k
    rw [lookup_monthlyLoop]
    show (retainedFor l k).foldl aggStep none = _
    cases hR : retainedFor l k with
    | nil => rfl
    | cons pa r =>
      rw [if_neg (by simp)]
      simp only [List.foldl_cons]
      rw [show aggStep none pa = some (bumpBucket ⟨.fin 0, 0, .fin 0⟩ pa.1 pa.2) from rfl,
        foldl_aggStep_some]
      simp only [bumpBucket, List.length_cons, Option.some.injEq, MonthlyBucket.mk.injEq]
      exact ⟨trivial, by omega, trivial⟩
  · norm_num [calculateMonthlyBreakdown, monthlyLoop, monthlyStep, upsertBucket, bumpBucket,
      monthlyBatch, datedTx, getMonthYearKey, padStartZero, calculatePointsForTransaction,
      pointsBody, JSNum.gt, JSNum.lt, JSNum.sub, JSNum.mul, JSNum.add, JSNum.jmin, JSNum.floor,
      JSNum.isNaN, HIGH_THRESHOLD, LOW_THRESHOLD, HIGH_MULTIPLIER, LOW_MULTIPLIER]
    decide

/-- A bucket update never produces a zero transaction count. -/
theorem upsertBucket_count_pos (acc : List (String × MonthlyBucket)) (k : String)
    (pts amt : JSNum) (h : ∀ p ∈ acc, 1 ≤ (p.2).transactionCount) :
    ∀ p ∈ upsertBucket acc k pts amt, 1 ≤ (p.2).transactionCount := by
  induction acc with
  | nil =>
    intro p hp
    simp only [upsertBucket, List.mem_singleton] at hp
    subst hp
    simp [bumpBucket]
  | cons q rest ih =>
    obtain ⟨k', b⟩ := q
    intro p hp
    by_cases hkk : k' = k
    · simp only [upsertBucket, if_pos hkk, List.mem_cons] at hp
      rcases hp with hp | hp
      · subst hp; simp [bumpBucket]
      · exact h p (List.mem_cons_of_mem _ hp)
    · simp only [upsertBucket, if_neg hkk, List.mem_cons] at hp
      rcases hp with hp | hp
      · subst hp; exact h _ (List.mem_cons_self _ _)
      · exact ih (fun q hq => h q (List.mem_cons_of_mem _ hq)) p hp

/-- One loop iteration preserves positivity of all transaction counts. -/
theorem monthlyStep_count_pos (acc : List (String × MonthlyBucket)) (t : Option Transaction)
    (h : ∀ p ∈ acc, 1 ≤ (p.2).transactionCount) :
    ∀ p ∈ monthlyStep acc t, 1 ≤ (p.2).transactionCount := by
  cases t with
  | none => exact h
  | some tx =>
    cases hA : tx.amount with
    | num n =>
      cases hD : tx.date with
      | parsed y m =>
        cases hC : calculatePointsForTransaction (.num n) with
        | ok pts =>
          simp only [monthlyStep, hA, hD, hC]
          exact upsertBucket_count_pos acc _ _ _ h
        | error e => simp only [monthlyStep, hA, hD, hC]; exact h
      | absent => simp only [monthlyStep, hA, hD]; exact h
      | unparseable => simp only [monthlyStep, hA, hD]; exact h
    | str s => simp only [monthlyStep, hA]; exact h
    | nullv => simp only [monthlyStep, hA]; exact h
    | undef => simp only [monthlyStep, hA]; exact h

/-- The whole loop preserves positivity of all transaction counts. -/
theorem monthlyLoop_count_pos (l : List (Option Transaction)) :
    ∀ acc : List (String × MonthlyBucket),
      (∀ p ∈ acc, 1 ≤ (p.2).transactionCount) →
      ∀ p ∈ monthlyLoop l acc, 1 ≤ (p.2).transactionCount := by
  induction l with
  | nil => intro acc h; exact h
  | cons t ts ih =>
    intro acc h
    exact ih (monthlyStep acc t) (monthlyStep_count_pos acc t h)

/-- Claim C10: every bucket present in a monthly breakdown has
`transactionCount ≥ 1` — buckets are created only when a retained
transaction maps to their key. -/
theorem claim_C10 (l : List (Option Transaction)) (k : String) (b : MonthlyBucket)
    (res : List (String × MonthlyBucket))
    (hres : calculateMonthlyBreakdown (some l) = .ok res)
    (hmem : (k, b) ∈ res) : 1 ≤ b.transactionCount := by
  have hres' : monthlyLoop l [] = res := by
    rw [calculateMonthlyBreakdown] at hres
    exact Except.ok.inj hres
  subst hres'
  exact monthlyLoop_count_pos l [] (by simp) (k, b) hmem

/-- Witness for C10 on a one-element batch whose single bucket has
count 1. -/
theorem claim_C10_witness :
    calculateMonthlyBreakdown (some [some (datedTx 120 2025 1)]) =
      .ok [("2025-01", ⟨.fin 90, 1, .fin 120⟩)] ∧
    ("2025-01", (⟨.fin 90, 1, .fin 120⟩ : MonthlyBucket)) ∈
      [("2025-01", (⟨.fin 90, 1, .fin 120⟩ : MonthlyBucket))] ∧
    1 ≤ (⟨.fin 90, 1, .fin 120⟩ : MonthlyBucket).transactionCount := by
  have h1 : calculateMonthlyBreakdown (some [some (datedTx 120 2025 1)]) =
      .ok [("2025-01", ⟨.fin 90, 1, .fin 120⟩)] := by
    norm_num [calculateMonthlyBreakdown, monthlyLoop, monthlyStep, upsertBucket, bumpBucket,
      datedTx, getMonthYearKey, padStartZero, calculatePointsForTransaction, pointsBody,
      JSNum.gt, JSNum.lt, JSNum.sub, JSNum.mul, JSNum.add, JSNum.jmin, JSNum.floor, JSNum.isNaN,
      HIGH_THRESHOLD, LOW_THRESHOLD, HIGH_MULTIPLIER, LOW_MULTIPLIER]
    decide
  have h2 : ("2025-01", (⟨.fin 90, 1, .fin 120⟩ : MonthlyBucket)) ∈
      [("2025-01", (⟨.fin 90, 1, .fin 120⟩ : MonthlyBucket))] := List.mem_singleton.mpr rfl
  exact ⟨h1, h2, claim_C10 _ _ _ _ h1 h2⟩

end RewardCalc
